import Mathlib

set_option maxRecDepth 8000

/-!
Verification development for the WebVrm perception-to-rig pipeline.

The JavaScript sources are embedded shallowly:
  * numbers are modelled as rationals (ℚ);
  * the transcendental library primitives `Math.atan2` and `Math.PI` are
    abstracted into a `MathEnv` record of rational-valued functions, threaded
    through every definition that uses them;
  * JS objects holding named blend-shape scores become association lists
    `List (String × ℚ)` with first-match lookup after upsert-style building;
  * a detector call that may throw becomes an `Except Unit` value;
  * the per-tick React state update is modelled as a pure function from the
    previous published state and this tick's detector results to the newly
    published state.
-/

namespace WebVrm

/-- A 3-D landmark point `{x, y, z}` as produced by a detector. -/
structure Landmark where
  x : ℚ
  y : ℚ
  z : ℚ
deriving DecidableEq

/-- A 2-D point `{x, y}` (normalized pose coordinates). -/
structure Vec2 where
  x : ℚ
  y : ℚ
deriving DecidableEq

/-- A rotation triple `{x, y, z}` in degrees. -/
structure Vec3 where
  x : ℚ
  y : ℚ
  z : ℚ
deriving DecidableEq

/-- `trackingData.face`: head rotation, position and the named blend-shape
scores (a JS object modelled as an association list). -/
structure FaceData where
  rotation : Vec3
  position : Vec3
  blendShapes : List (String × ℚ)
deriving DecidableEq

/-- A left/right pair of 2-D points. -/
structure SidePair where
  left : Vec2
  right : Vec2
deriving DecidableEq

/-- `trackingData.pose`: shoulders, elbows and wrists as left/right pairs. -/
structure PoseData where
  shoulders : SidePair
  elbows : SidePair
  wrists : SidePair
deriving DecidableEq

/-- `trackingData.hands.left` / `.right`: landmark sequence plus detected flag. -/
structure HandData where
  landmarks : List Landmark
  detected : Bool
deriving DecidableEq

/-- Both hands. -/
structure HandsData where
  left : HandData
  right : HandData
deriving DecidableEq

/-- The aggregate `trackingData` state published each tick. -/
structure TrackingData where
  face : FaceData
  pose : PoseData
  hands : HandsData
deriving DecidableEq

/-- `detectionStatus.handsDetected`. -/
structure HandsFlags where
  left : Bool
  right : Bool
deriving DecidableEq

/-- The `detectionStatus` state published each tick. -/
structure DetectionStatus where
  faceDetected : Bool
  poseDetected : Bool
  handsDetected : HandsFlags
deriving DecidableEq

/-- The settings snapshot consumed by the pipeline.  `blinkInterval` is an
`Option ℕ` so that both an absent field and an explicit `0` (both falsy in
JS) can be expressed for the `settings.blinkInterval || 4` default. -/
structure Settings where
  faceTrackingEnabled : Bool
  bodyTrackingEnabled : Bool
  handTrackingEnabled : Bool
  mirrorMode : Bool
  trackingSmoothing : ℚ
  trackingSpeed : ℚ
  lipSyncEnabled : Bool
  lipSyncSensitivity : ℚ
  blinkEnabled : Bool
  blinkInterval : Option ℕ
  idleAnimationEnabled : Bool
deriving DecidableEq

/-- Abstraction of the JS math library: `Math.atan2` (on rationals standing
for doubles) and `Math.PI`.  The pipeline's behaviour on the properties
verified below does not depend on their actual values. -/
structure MathEnv where
  atan2 : ℚ → ℚ → ℚ
  pi : ℚ

/-- `faceLandmarkerRef.current.detectForVideo` result shape. -/
structure FaceResults where
  faceLandmarks : List (List Landmark)
  faceBlendshapes : List (List (String × ℚ))
deriving DecidableEq

/-- `poseLandmarkerRef.current.detectForVideo` result shape. -/
structure PoseResults where
  landmarks : List (List Landmark)
deriving DecidableEq

/-- `handLandmarkerRef.current.detectForVideo` result shape: per detected
hand a landmark list, and `handedness[index][0].categoryName` strings. -/
structure HandResults where
  landmarks : List (List Landmark)
  handedness : List (List String)
deriving DecidableEq

/-- `function lerp(a, b, t) { return a + (b - a) * t; }` -/
def lerp (a b t : ℚ) : ℚ := a + (b - a) * t

/-- Indexed landmark access `landmarks[i]` (in-range in every scenario
considered here; an out-of-range JS access would raise and be absorbed by
the tick's catch-all, a path exercised via `Except` at the detector call). -/
def getLm (l : List Landmark) (i : ℕ) : Landmark := l.getD i ⟨0, 0, 0⟩

/-- `blendShapes[name]` with the `|| 0` default used at every read site. -/
def getScore (m : List (String × ℚ)) (k : String) : ℚ :=
  ((m.find? fun p => p.1 == k).map fun p => p.2).getD 0

/-- One JS object assignment `blendShapes[name] = score` (overwrite or append). -/
def setScore (m : List (String × ℚ)) (k : String) (v : ℚ) : List (String × ℚ) :=
  if m.any fun p => p.1 == k then
    m.map fun p => if p.1 == k then (k, v) else p
  else m ++ [(k, v)]

/-- `faceResults.faceBlendshapes[0].categories.forEach(c => blendShapes[c.categoryName] = c.score)` -/
def buildBlendShapes (cats : List (String × ℚ)) : List (String × ℚ) :=
  cats.foldl (fun m c => setScore m c.1 c.2) []

/-- The face-tracking block of `predict` (useMediaPipeTracking.js lines
116–155), applied to a successfully returned `faceResults`. -/
def faceStep (env : MathEnv) (s : Settings) (fr : FaceResults)
    (td : TrackingData) (st : DetectionStatus) : TrackingData × DetectionStatus :=
  if fr.faceLandmarks.length > 0 then
    let landmarks := fr.faceLandmarks.getD 0 []
    let noseTip := getLm landmarks 1
    let leftEye := getLm landmarks 33
    let rightEye := getLm landmarks 263
    -- `const chin = landmarks[152]` is bound but never used in the source.
    let eyeCenterY := (leftEye.y + rightEye.y) / 2
    let yaw := (noseTip.x - 1/2) * 60
    let pitch := (noseTip.y - eyeCenterY) * 60
    let roll := env.atan2 (rightEye.y - leftEye.y) (rightEye.x - leftEye.x) * (180 / env.pi)
    let rotation : Vec3 :=
      { x := if s.mirrorMode then -pitch else pitch
        y := if s.mirrorMode then -yaw else yaw
        z := if s.mirrorMode then -roll else roll }
    -- the source assigns the new rotation, then overwrites `blendShapes`
    -- only when `faceResults.faceBlendshapes` is non-empty
    ({ td with face :=
        { rotation := rotation
          position := td.face.position
          blendShapes :=
            if fr.faceBlendshapes.length > 0 then
              buildBlendShapes (fr.faceBlendshapes.getD 0 [])
            else td.face.blendShapes } },
     { st with faceDetected := true })
  else (td, st)

/-- The pose-tracking block of `predict` (lines 157–181). -/
def poseStep (pr : PoseResults) (td : TrackingData) (st : DetectionStatus) :
    TrackingData × DetectionStatus :=
  if pr.landmarks.length > 0 then
    let pose := pr.landmarks.getD 0 []
    ({ td with pose :=
        { shoulders :=
            { left := ⟨(getLm pose 11).x, (getLm pose 11).y⟩
              right := ⟨(getLm pose 12).x, (getLm pose 12).y⟩ }
          elbows :=
            { left := ⟨(getLm pose 13).x, (getLm pose 13).y⟩
              right := ⟨(getLm pose 14).x, (getLm pose 14).y⟩ }
          wrists :=
            { left := ⟨(getLm pose 15).x, (getLm pose 15).y⟩
              right := ⟨(getLm pose 16).x, (getLm pose 16).y⟩ } } },
     { st with poseDetected := true })
  else (td, st)

/-- One iteration of `handResults.handedness.forEach((handedness, index) => ...)`
(lines 188–195).  A handedness label other than left/right would write JS
properties that no reader ever consults, so it is observably a no-op. -/
def applyHand (lms : List (List Landmark)) (acc : TrackingData × DetectionStatus)
    (ih : ℕ × List String) : TrackingData × DetectionStatus :=
  let hand := (ih.2.getD 0 "").toLower
  if hand = "left" then
    ({ acc.1 with hands.left := ⟨lms.getD ih.1 [], true⟩ },
     { acc.2 with handsDetected.left := true })
  else if hand = "right" then
    ({ acc.1 with hands.right := ⟨lms.getD ih.1 [], true⟩ },
     { acc.2 with handsDetected.right := true })
  else acc

/-- The hand-tracking block of `predict` (lines 183–197). -/
def handsStep (hr : HandResults) (td : TrackingData) (st : DetectionStatus) :
    TrackingData × DetectionStatus :=
  if hr.landmarks.length > 0 then
    hr.handedness.enum.foldl (applyHand hr.landmarks) (td, st)
  else (td, st)

/-- The smoothing block of `predict` (lines 199–205).

`const newTrackingData = { ...trackingData }` is a SHALLOW copy: the nested
`face` object is shared between `trackingData` and `newTrackingData`, so the
earlier assignment `newTrackingData.face.rotation = {...}` also replaced
`trackingData.face.rotation`.  At the smoothing lines both
`trackingData.face.rotation.x` and `newTrackingData.face.rotation.x`
therefore read the SAME freshly written value; the translation below reads
`td.face.rotation` for both `lerp` arguments accordingly. -/
def smoothStep (s : Settings) (td : TrackingData) : TrackingData :=
  if s.trackingSmoothing > 0 then
    let r := td.face.rotation
    { td with face.rotation :=
        { x := lerp r.x r.x (1 - s.trackingSmoothing)
          y := lerp r.y r.y (1 - s.trackingSmoothing)
          z := lerp r.z r.z (1 - s.trackingSmoothing) } }
  else td

/-- `const newDetectionStatus = { faceDetected: false, poseDetected: false,
handsDetected: { left: false, right: false } }` (line 113): the status is
rebuilt from scratch every tick. -/
def freshStatus : DetectionStatus := ⟨false, false, ⟨false, false⟩⟩

/-- What the PREVIOUS state object looks like after a detector throw: the
catch performs no rollback, and `newTrackingData = { ...trackingData }` is a
shallow copy, so the nested `face` and `hands` objects are SHARED — in-place
mutations made before the throw (the face block's `rotation`/`blendShapes`
assignments, hand entry writes) persist in `trackingData`.  The pose block
instead assigns a fresh object to `newTrackingData.pose` (line 166), a
top-level property of the copy, so pose updates never leak.  `leak td0 td`
is the previous state as left behind: current face and hands, original
pose.  (In the modelled granularity a hand-detector throw precedes any hand
entry write, so `td.hands` at a throw is still the previous hands.) -/
def leak (td0 td : TrackingData) : TrackingData := { td with pose := td0.pose }

/-- The body of the `try` block of `predict` (lines 111–208): runs the three
modality blocks in order (each behind its enable flag; a disabled modality's
detector is never invoked), then smoothing.  The first detector throw
propagates out of the whole body; the error value records the state the
previous `trackingData` object has been left in by the in-place mutations
performed before the throw (see `leak`). -/
def tickBody (env : MathEnv) (s : Settings) (td0 : TrackingData)
    (faceRes : Except Unit FaceResults) (poseRes : Except Unit PoseResults)
    (handRes : Except Unit HandResults) :
    Except TrackingData (TrackingData × DetectionStatus) :=
  Except.bind
    (if s.faceTrackingEnabled then
      match faceRes with
      | .error _ => .error td0
      | .ok fr => .ok (faceStep env s fr td0 freshStatus)
     else .ok (td0, freshStatus)) fun a1 =>
  Except.bind
    (if s.bodyTrackingEnabled then
      match poseRes with
      | .error _ => .error (leak td0 a1.1)
      | .ok pr => .ok (poseStep pr a1.1 a1.2)
     else .ok a1) fun a2 =>
  Except.bind
    (if s.handTrackingEnabled then
      match handRes with
      | .error _ => .error (leak td0 a2.1)
      | .ok hr => .ok (handsStep hr a2.1 a2.2)
     else .ok a2) fun a3 =>
  .ok (smoothStep s a3.1, a3.2)

/-- One full tick of `predict` (lines 102–216): on success the new
`trackingData`/`detectionStatus` pair is published via the two `set` calls.
A throw anywhere in the `try` body is caught and only logged: neither `set`
call runs, so the published `detectionStatus` keeps all its previous values;
the carried `trackingData` is the previous object as mutated in place before
the throw (see `leak` — no rollback happens).  The loop always reschedules
the next frame afterwards (never fatal). -/
def predict (env : MathEnv) (s : Settings) (prev : TrackingData)
    (prevStatus : DetectionStatus) (faceRes : Except Unit FaceResults)
    (poseRes : Except Unit PoseResults) (handRes : Except Unit HandResults) :
    TrackingData × DetectionStatus :=
  match tickBody env s prev faceRes poseRes handRes with
  | .ok r => r
  | .error leaked => (leaked, prevStatus)

/-- The initial `trackingData` React state (lines 5–20). -/
def initialTrackingData : TrackingData :=
  { face := { rotation := ⟨0, 0, 0⟩, position := ⟨0, 0, 0⟩, blendShapes := [] }
    pose :=
      { shoulders := { left := ⟨0, 0⟩, right := ⟨0, 0⟩ }
        elbows := { left := ⟨0, 0⟩, right := ⟨0, 0⟩ }
        wrists := { left := ⟨0, 0⟩, right := ⟨0, 0⟩ } }
    hands :=
      { left := { landmarks := [], detected := false }
        right := { landmarks := [], detected := false } } }

/-- The initial `detectionStatus` React state (lines 22–26). -/
def initialDetectionStatus : DetectionStatus :=
  { faceDetected := false, poseDetected := false
    handsDetected := { left := false, right := false } }

/-! ### The applier: useVRMAnimation (rig writes per tick) -/

/-- `const blinkInterval = settings.blinkInterval || 4` (part_000 line 153):
both an absent field and an explicit `0` are falsy and replaced by 4. -/
def effBlinkInterval (s : Settings) : ℕ :=
  match s.blinkInterval with
  | none => 4
  | some n => if n = 0 then 4 else n

/-- The time test of the auto-blink block (line 154):
`Math.floor(time) % blinkInterval === 0 && time % 1 < 0.15`, for the
non-negative wall-clock times `Date.now()/1000` produces (for `t ≥ 0`,
JS `time % 1` is the fractional part `t - ⌊t⌋`). -/
def autoBlinkActive (t : ℚ) (interval : ℕ) : Bool :=
  decide (⌊t⌋ % (interval : ℤ) = 0) && decide (t - ⌊t⌋ < 3/20)

/-- The full auto-blink guard (lines 151–154):
`settings.blinkEnabled && !trackingData.face.blendShapes.eyeBlinkLeft`
(absent and `0` are both falsy, i.e. the looked-up score is `0`), then the
time test with the defaulted interval. -/
def autoBlinkFires (s : Settings) (bs : List (String × ℚ)) (t : ℚ) : Bool :=
  s.blinkEnabled && decide (getScore bs "eyeBlinkLeft" = 0)
    && autoBlinkActive t (effBlinkInterval s)

/-- `mouthOpen = Math.max(trackingMouth, micMouth) * settings.lipSyncSensitivity`
with `trackingMouth = blendShapes.jawOpen || 0` and `micMouth = micLevel || 0`
(lines 42–44). -/
def mouthOpen (bs : List (String × ℚ)) (micLevel sensitivity : ℚ) : ℚ :=
  max (getScore bs "jawOpen") micLevel * sensitivity

/-- The sequence of `expressionManager.setValue` calls one applier pass
performs, in source order (part_000 lines 16–66 and the auto-blink block at
lines 150–159), as `(expression name, weight)` pairs.  The face section runs
when `settings.faceTrackingEnabled` (the `trackingData.face`,
`vrm.expressionManager` and `trackingData.face.blendShapes` objects always
exist); within it the blink writes are gated by `blinkEnabled`, the
mouth writes by `lipSyncEnabled`, and the eyebrow writes are unconditional. -/
def expressionWrites (s : Settings) (bs : List (String × ℚ)) (micLevel t : ℚ) :
    List (String × ℚ) :=
  (if s.faceTrackingEnabled then
    (if s.blinkEnabled then
      [("blinkLeft", getScore bs "eyeBlinkLeft"),
       ("blinkRight", getScore bs "eyeBlinkRight"),
       ("blink", (getScore bs "eyeBlinkLeft" + getScore bs "eyeBlinkRight") / 2)]
     else [])
    ++ (if s.lipSyncEnabled then
      [("aa", mouthOpen bs micLevel s.lipSyncSensitivity),
       ("happy", getScore bs "mouthSmileLeft" + getScore bs "mouthSmileRight")]
     else [])
    ++ [("surprised", getScore bs "browInnerUp"),
        ("angry", getScore bs "browDownLeft" + getScore bs "browDownRight")]
   else [])
  ++ (if autoBlinkFires s bs t then [("blink", 1)] else [])

/-- The pose section of the applier (part_000 lines 69–111): the four arm
bone rotation writes computed from `trackingData.pose`, each gated ONLY on
`bodyTrackingEnabled` and on the rig having that bone (`hasBone`) — the
source consults no detection information here.  Values are
`atan2(...) − π/2` for shoulders and `atan2(...)` for elbows. -/
def armBoneWrites (env : MathEnv) (s : Settings) (pose : PoseData)
    (hasBone : String → Bool) : List (String × ℚ) :=
  if s.bodyTrackingEnabled then
    (if hasBone "leftUpperArm" then
      [("leftUpperArm",
        env.atan2 (pose.elbows.left.y - pose.shoulders.left.y)
          (pose.elbows.left.x - pose.shoulders.left.x) - env.pi / 2)]
     else [])
    ++ (if hasBone "rightUpperArm" then
      [("rightUpperArm",
        env.atan2 (pose.elbows.right.y - pose.shoulders.right.y)
          (pose.elbows.right.x - pose.shoulders.right.x) - env.pi / 2)]
     else [])
    ++ (if hasBone "leftLowerArm" then
      [("leftLowerArm",
        env.atan2 (pose.wrists.left.y - pose.elbows.left.y)
          (pose.wrists.left.x - pose.elbows.left.x))]
     else [])
    ++ (if hasBone "rightLowerArm" then
      [("rightLowerArm",
        env.atan2 (pose.wrists.right.y - pose.elbows.right.y)
          (pose.wrists.right.x - pose.elbows.right.x))]
     else [])
  else []

/-- The hand section of the applier (part_000 lines 113–148): per side a
single wrist-bone rotation write, gated on `handTrackingEnabled`, that
hand's `detected` flag, a non-empty landmark list, and the rig bone. -/
def handBoneWrites (env : MathEnv) (s : Settings) (hands : HandsData)
    (hasBone : String → Bool) : List (String × ℚ) :=
  if s.handTrackingEnabled then
    (if hands.left.detected && hands.left.landmarks.length > 0
        && hasBone "leftHand" then
      [("leftHand",
        env.atan2 ((getLm hands.left.landmarks 9).y - (getLm hands.left.landmarks 0).y)
          ((getLm hands.left.landmarks 9).x - (getLm hands.left.landmarks 0).x))]
     else [])
    ++ (if hands.right.detected && hands.right.landmarks.length > 0
        && hasBone "rightHand" then
      [("rightHand",
        env.atan2 ((getLm hands.right.landmarks 9).y - (getLm hands.right.landmarks 0).y)
          ((getLm hands.right.landmarks 9).x - (getLm hands.right.landmarks 0).x))]
     else [])
  else []

/-- Whether the face branch of this tick takes its "face detected" path:
face tracking enabled and the face detector returned (did not throw) a
non-empty `faceLandmarks` list (line 119). -/
def faceDetectedTick (s : Settings) (faceRes : Except Unit FaceResults) : Bool :=
  s.faceTrackingEnabled &&
    match faceRes with
    | .ok fr => decide (0 < fr.faceLandmarks.length)
    | .error _ => false

/-! ### Helper lemmas -/

@[simp] lemma exbind_ok {ε α β : Type} (x : α) (f : α → Except ε β) :
    Except.bind (.ok x) f = f x := rfl

@[simp] lemma exbind_error {ε α β : Type} (e : ε) (f : α → Except ε β) :
    Except.bind (.error e) f = .error e := rfl

/-- `lerp(a, a, t) = a`: interpolating a value with itself is the identity. -/
@[simp] lemma lerp_self (a t : ℚ) : lerp a a t = a := by
  simp [lerp]

/-- Because of the shallow-copy aliasing, the smoothing block of `predict`
is observationally the identity on the whole tracking state. -/
@[simp] lemma smoothStep_eq (s : Settings) (td : TrackingData) :
    smoothStep s td = td := by
  unfold smoothStep
  split
  · dsimp only
    simp [lerp]
  · rfl

@[simp] lemma poseStep_face (pr : PoseResults) (td : TrackingData)
    (st : DetectionStatus) : (poseStep pr td st).1.face = td.face := by
  unfold poseStep; split <;> rfl

@[simp] lemma poseStep_hands (pr : PoseResults) (td : TrackingData)
    (st : DetectionStatus) : (poseStep pr td st).1.hands = td.hands := by
  unfold poseStep; split <;> rfl

@[simp] lemma poseStep_handsDetected (pr : PoseResults) (td : TrackingData)
    (st : DetectionStatus) : (poseStep pr td st).2.handsDetected = st.handsDetected := by
  unfold poseStep; split <;> rfl

@[simp] lemma faceStep_pose (env : MathEnv) (s : Settings) (fr : FaceResults)
    (td : TrackingData) (st : DetectionStatus) :
    (faceStep env s fr td st).1.pose = td.pose := by
  unfold faceStep; split <;> rfl

@[simp] lemma faceStep_hands (env : MathEnv) (s : Settings) (fr : FaceResults)
    (td : TrackingData) (st : DetectionStatus) :
    (faceStep env s fr td st).1.hands = td.hands := by
  unfold faceStep; split <;> rfl

@[simp] lemma faceStep_handsDetected (env : MathEnv) (s : Settings)
    (fr : FaceResults) (td : TrackingData) (st : DetectionStatus) :
    (faceStep env s fr td st).2.handsDetected = st.handsDetected := by
  unfold faceStep; split <;> rfl

/-- When the face landmark list is empty, the face block leaves everything
unchanged. -/
lemma faceStep_of_no_landmarks (env : MathEnv) (s : Settings)
    (fr : FaceResults) (td : TrackingData) (st : DetectionStatus)
    (h : ¬ 0 < fr.faceLandmarks.length) :
    faceStep env s fr td st = (td, st) := by
  unfold faceStep
  rw [if_neg h]

/-- When the detector returned no blend shapes, the face block leaves the
published blend-shape mapping unchanged. -/
lemma faceStep_blendShapes_of_no_blendshapes (env : MathEnv) (s : Settings)
    (fr : FaceResults) (td : TrackingData) (st : DetectionStatus)
    (h : fr.faceBlendshapes = []) :
    (faceStep env s fr td st).1.face.blendShapes = td.face.blendShapes := by
  unfold faceStep
  split
  · dsimp only
    rw [h]
    simp
  · rfl

@[simp] lemma applyHand_face (lms : List (List Landmark))
    (acc : TrackingData × DetectionStatus) (ih : ℕ × List String) :
    (applyHand lms acc ih).1.face = acc.1.face := by
  unfold applyHand
  dsimp only
  split
  · rfl
  · split <;> rfl

@[simp] lemma applyHand_pose (lms : List (List Landmark))
    (acc : TrackingData × DetectionStatus) (ih : ℕ × List String) :
    (applyHand lms acc ih).1.pose = acc.1.pose := by
  unfold applyHand
  dsimp only
  split
  · rfl
  · split <;> rfl

lemma foldl_applyHand_face (lms : List (List Landmark))
    (l : List (ℕ × List String)) (acc : TrackingData × DetectionStatus) :
    ((l.foldl (applyHand lms) acc).1.face = acc.1.face) := by
  induction l generalizing acc with
  | nil => rfl
  | cons x xs ihx =>
      rw [List.foldl_cons, ihx]
      simp

lemma foldl_applyHand_pose (lms : List (List Landmark))
    (l : List (ℕ × List String)) (acc : TrackingData × DetectionStatus) :
    ((l.foldl (applyHand lms) acc).1.pose = acc.1.pose) := by
  induction l generalizing acc with
  | nil => rfl
  | cons x xs ihx =>
      rw [List.foldl_cons, ihx]
      simp

@[simp] lemma handsStep_face (hr : HandResults) (td : TrackingData)
    (st : DetectionStatus) : (handsStep hr td st).1.face = td.face := by
  unfold handsStep
  split
  · exact foldl_applyHand_face _ _ _
  · rfl

@[simp] lemma handsStep_pose (hr : HandResults) (td : TrackingData)
    (st : DetectionStatus) : (handsStep hr td st).1.pose = td.pose := by
  unfold handsStep
  split
  · exact foldl_applyHand_pose _ _ _
  · rfl

lemma bind_ok_elim {ε α β : Type} (A : Except ε α) (f : α → Except ε β)
    (b : β) (h : Except.bind A f = .ok b) : ∃ a, A = .ok a ∧ f a = .ok b := by
  cases A with
  | error e => simp [Except.bind] at h
  | ok a => exact ⟨a, rfl, h⟩

lemma bind_error_elim {ε α β : Type} (A : Except ε α) (f : α → Except ε β)
    (e : ε) (h : Except.bind A f = .error e) :
    A = .error e ∨ ∃ a, A = .ok a ∧ f a = .error e := by
  cases A with
  | error e2 =>
      left
      have h2 : (Except.error e2 : Except ε β) = Except.error e :=
        (exbind_error e2 f).symm.trans h
      injection h2 with h3
      rw [h3]
  | ok a => right; exact ⟨a, rfl, h⟩

lemma bind_eq_error_of_snd {ε α β : Type} (A : Except ε α)
    (f : α → Except ε β) (h : ∀ a, ∃ e, f a = .error e) :
    ∃ e, Except.bind A f = .error e := by
  cases A with
  | error e => exact ⟨e, rfl⟩
  | ok a => exact h a

/-- Anatomy of a successful tick: the three modality stages ran in order,
each either taken (enabled, detector returned) or skipped, and the result is
the smoothed final state paired with the accumulated fresh status. -/
lemma tickBody_ok_decompose (env : MathEnv) (s : Settings) (td0 : TrackingData)
    (faceRes : Except Unit FaceResults) (poseRes : Except Unit PoseResults)
    (handRes : Except Unit HandResults) (r : TrackingData × DetectionStatus)
    (h : tickBody env s td0 faceRes poseRes handRes = .ok r) :
    ∃ a1 a2 a3 : TrackingData × DetectionStatus,
      (if s.faceTrackingEnabled = true then
        ∃ fr, faceRes = .ok fr ∧ a1 = faceStep env s fr td0 freshStatus
       else a1 = (td0, freshStatus))
      ∧ (if s.bodyTrackingEnabled = true then
        ∃ pr, poseRes = .ok pr ∧ a2 = poseStep pr a1.1 a1.2
       else a2 = a1)
      ∧ (if s.handTrackingEnabled = true then
        ∃ hr, handRes = .ok hr ∧ a3 = handsStep hr a2.1 a2.2
       else a3 = a2)
      ∧ r = (smoothStep s a3.1, a3.2) := by
  unfold tickBody at h
  obtain ⟨a1, hA, h⟩ := bind_ok_elim _ _ _ h
  obtain ⟨a2, hB, h⟩ := bind_ok_elim _ _ _ h
  obtain ⟨a3, hC, h⟩ := bind_ok_elim _ _ _ h
  refine ⟨a1, a2, a3, ?_, ?_, ?_, by injection h with h2; exact h2.symm⟩
  · by_cases hf : s.faceTrackingEnabled = true
    · rw [if_pos hf] at hA ⊢
      cases faceRes with
      | error e => simp at hA
      | ok fr =>
          refine ⟨fr, rfl, ?_⟩
          have hA2 : Except.ok (faceStep env s fr td0 freshStatus)
              = Except.ok a1 := hA
          injection hA2 with h2
          exact h2.symm
    · rw [if_neg hf] at hA ⊢
      injection hA with h2
      exact h2.symm
  · by_cases hb : s.bodyTrackingEnabled = true
    · rw [if_pos hb] at hB ⊢
      cases poseRes with
      | error e => simp at hB
      | ok pr =>
          refine ⟨pr, rfl, ?_⟩
          have hB2 : Except.ok (poseStep pr a1.1 a1.2) = Except.ok a2 := hB
          injection hB2 with h2
          exact h2.symm
    · rw [if_neg hb] at hB ⊢
      injection hB with h2
      exact h2.symm
  · by_cases hh : s.handTrackingEnabled = true
    · rw [if_pos hh] at hC ⊢
      cases handRes with
      | error e => simp at hC
      | ok hr2 =>
          refine ⟨hr2, rfl, ?_⟩
          have hC2 : Except.ok (handsStep hr2 a2.1 a2.2) = Except.ok a3 := hC
          injection hC2 with h2
          exact h2.symm
    · rw [if_neg hh] at hC ⊢
      injection hC with h2
      exact h2.symm

/-- With all three detector calls returning, the tick body never fails. -/
lemma tickBody_ok_of_all_ok (env : MathEnv) (s : Settings) (td0 : TrackingData)
    (fr : FaceResults) (pr : PoseResults) (hr : HandResults) :
    ∃ r, tickBody env s td0 (.ok fr) (.ok pr) (.ok hr) = .ok r := by
  unfold tickBody
  by_cases h1 : s.faceTrackingEnabled = true <;>
    by_cases h2 : s.bodyTrackingEnabled = true <;>
      by_cases h3 : s.handTrackingEnabled = true <;>
        simp [h1, h2, h3]

/-- When the pose landmark list is empty, the pose block leaves everything
unchanged. -/
lemma poseStep_of_no_landmarks (pr : PoseResults) (td : TrackingData)
    (st : DetectionStatus) (h : ¬ 0 < pr.landmarks.length) :
    poseStep pr td st = (td, st) := by
  unfold poseStep
  rw [if_neg h]

/-- The handedness label a side is tracked under (`"left"`/`"right"`). -/
def sideName (isLeft : Bool) : String := if isLeft then "left" else "right"

/-- Select one side of the hands state. -/
def handOf (h : HandsData) (isLeft : Bool) : HandData :=
  if isLeft then h.left else h.right

/-- Select one side of the hand detection flags. -/
def handFlagOf (f : HandsFlags) (isLeft : Bool) : Bool :=
  if isLeft then f.left else f.right

lemma applyHand_side_ne (lms : List (List Landmark))
    (acc : TrackingData × DetectionStatus) (x : ℕ × List String) (isLeft : Bool)
    (hx : (x.2.getD 0 "").toLower ≠ sideName isLeft) :
    handOf (applyHand lms acc x).1.hands isLeft = handOf acc.1.hands isLeft
    ∧ handFlagOf (applyHand lms acc x).2.handsDetected isLeft
        = handFlagOf acc.2.handsDetected isLeft := by
  unfold applyHand
  dsimp only
  by_cases h1 : (x.2.getD 0 "").toLower = "left"
  · rw [if_pos h1]
    cases isLeft with
    | true => exact absurd h1 (by simpa [sideName] using hx)
    | false => exact ⟨rfl, rfl⟩
  · rw [if_neg h1]
    by_cases h2 : (x.2.getD 0 "").toLower = "right"
    · rw [if_pos h2]
      cases isLeft with
      | true => exact ⟨rfl, rfl⟩
      | false => exact absurd h2 (by simpa [sideName] using hx)
    · rw [if_neg h2]
      exact ⟨rfl, rfl⟩

lemma foldl_applyHand_side (lms : List (List Landmark))
    (l : List (ℕ × List String)) (isLeft : Bool)
    (h : ∀ p ∈ l, (p.2.getD 0 "").toLower ≠ sideName isLeft) :
    ∀ acc : TrackingData × DetectionStatus,
      handOf (l.foldl (applyHand lms) acc).1.hands isLeft
          = handOf acc.1.hands isLeft
      ∧ handFlagOf (l.foldl (applyHand lms) acc).2.handsDetected isLeft
          = handFlagOf acc.2.handsDetected isLeft := by
  induction l with
  | nil => intro acc; exact ⟨rfl, rfl⟩
  | cons x xs ihx =>
      intro acc
      rw [List.foldl_cons]
      obtain ⟨i1, i2⟩ :=
        ihx (fun p hp => h p (List.mem_cons_of_mem x hp)) (applyHand lms acc x)
      obtain ⟨j1, j2⟩ :=
        applyHand_side_ne lms acc x isLeft (h x (List.mem_cons_self x xs))
      exact ⟨i1.trans j1, i2.trans j2⟩

/-- A side never named by this tick's handedness labels is untouched by the
hand block: entry and flag pass through. -/
lemma handsStep_side (hr : HandResults) (td : TrackingData)
    (st : DetectionStatus) (isLeft : Bool)
    (h : ∀ l ∈ hr.handedness, (l.getD 0 "").toLower ≠ sideName isLeft) :
    handOf (handsStep hr td st).1.hands isLeft = handOf td.hands isLeft
    ∧ handFlagOf (handsStep hr td st).2.handsDetected isLeft
        = handFlagOf st.handsDetected isLeft := by
  unfold handsStep
  split
  · refine foldl_applyHand_side _ _ _ ?_ (td, st)
    intro p hp
    have hmem : p.2 ∈ hr.handedness := by
      have he := List.enum_map_snd hr.handedness
      rw [← he]
      exact List.mem_map_of_mem Prod.snd hp
    exact h p.2 hmem
  · exact ⟨rfl, rfl⟩

/-- Anatomy of a failed tick: which stage threw, and what state the previous
`trackingData` object was left in (see `leak`). -/
lemma tickBody_error_decompose (env : MathEnv) (s : Settings)
    (td0 : TrackingData) (faceRes : Except Unit FaceResults)
    (poseRes : Except Unit PoseResults) (handRes : Except Unit HandResults)
    (leaked : TrackingData)
    (h : tickBody env s td0 faceRes poseRes handRes = .error leaked) :
    (s.faceTrackingEnabled = true ∧ faceRes = .error () ∧ leaked = td0)
    ∨ ∃ a1 : TrackingData × DetectionStatus,
        (if s.faceTrackingEnabled = true then
          ∃ fr, faceRes = .ok fr ∧ a1 = faceStep env s fr td0 freshStatus
         else a1 = (td0, freshStatus))
        ∧ ((s.bodyTrackingEnabled = true ∧ poseRes = .error ()
              ∧ leaked = leak td0 a1.1)
          ∨ ∃ a2 : TrackingData × DetectionStatus,
              (if s.bodyTrackingEnabled = true then
                ∃ pr, poseRes = .ok pr ∧ a2 = poseStep pr a1.1 a1.2
               else a2 = a1)
              ∧ s.handTrackingEnabled = true ∧ handRes = .error ()
              ∧ leaked = leak td0 a2.1) := by
  unfold tickBody at h
  rcases bind_error_elim _ _ _ h with hA | ⟨a1, hA, h⟩
  · left
    by_cases hf : s.faceTrackingEnabled = true
    · rw [if_pos hf] at hA
      cases faceRes with
      | error e =>
          cases e
          have hA2 : Except.error (α := TrackingData × DetectionStatus) td0
              = Except.error leaked := hA
          injection hA2 with h2
          exact ⟨hf, rfl, h2.symm⟩
      | ok fr => simp at hA
    · rw [if_neg hf] at hA
      exact absurd hA (by simp)
  · right
    have hA1 : if s.faceTrackingEnabled = true then
        ∃ fr, faceRes = .ok fr ∧ a1 = faceStep env s fr td0 freshStatus
      else a1 = (td0, freshStatus) := by
      by_cases hf : s.faceTrackingEnabled = true
      · rw [if_pos hf] at hA ⊢
        cases faceRes with
        | error e => simp at hA
        | ok fr =>
            refine ⟨fr, rfl, ?_⟩
            have hA2 : Except.ok (faceStep env s fr td0 freshStatus)
                = Except.ok a1 := hA
            injection hA2 with h2
            exact h2.symm
      · rw [if_neg hf] at hA ⊢
        injection hA with h2
        exact h2.symm
    refine ⟨a1, hA1, ?_⟩
    rcases bind_error_elim _ _ _ h with hB | ⟨a2, hB, h⟩
    · left
      by_cases hb : s.bodyTrackingEnabled = true
      · rw [if_pos hb] at hB
        cases poseRes with
        | error e =>
            cases e
            have hB2 : Except.error (α := TrackingData × DetectionStatus)
                (leak td0 a1.1) = Except.error leaked := hB
            injection hB2 with h2
            exact ⟨hb, rfl, h2.symm⟩
        | ok pr => simp at hB
      · rw [if_neg hb] at hB
        exact absurd hB (by simp)
    · right
      have hA2 : if s.bodyTrackingEnabled = true then
          ∃ pr, poseRes = .ok pr ∧ a2 = poseStep pr a1.1 a1.2
        else a2 = a1 := by
        by_cases hb : s.bodyTrackingEnabled = true
        · rw [if_pos hb] at hB ⊢
          cases poseRes with
          | error e => simp at hB
          | ok pr =>
              refine ⟨pr, rfl, ?_⟩
              have hB2 : Except.ok (poseStep pr a1.1 a1.2)
                  = Except.ok a2 := hB
              injection hB2 with h2
              exact h2.symm
        · rw [if_neg hb] at hB ⊢
          injection hB with h2
          exact h2.symm
      refine ⟨a2, hA2, ?_⟩
      rcases bind_error_elim _ _ _ h with hC | ⟨a3, hC, h⟩
      · by_cases hh : s.handTrackingEnabled = true
        · rw [if_pos hh] at hC
          cases handRes with
          | error e =>
              cases e
              have hC2 : Except.error (α := TrackingData × DetectionStatus)
                  (leak td0 a2.1) = Except.error leaked := hC
              injection hC2 with h2
              exact ⟨hh, rfl, h2.symm⟩
          | ok hr2 => simp at hC
        · rw [if_neg hh] at hC
          exact absurd hC (by simp)
      · exact absurd h (by simp)

/-- Whatever stage threw, the carried state's pose is the previous pose:
pose updates are assigned on the copy and never leak. -/
lemma tickBody_error_pose (env : MathEnv) (s : Settings) (td0 : TrackingData)
    (faceRes : Except Unit FaceResults) (poseRes : Except Unit PoseResults)
    (handRes : Except Unit HandResults) (leaked : TrackingData)
    (h : tickBody env s td0 faceRes poseRes handRes = .error leaked) :
    leaked.pose = td0.pose := by
  rcases tickBody_error_decompose _ _ _ _ _ _ _ h with
    ⟨_, _, hl⟩ | ⟨a1, _, ⟨_, _, hl⟩ | ⟨a2, _, _, _, hl⟩⟩
  · rw [hl]
  · rw [hl]
    rfl
  · rw [hl]
    rfl

/-- An enabled modality's detector throw makes the whole tick body fail. -/
lemma tickBody_isError_of_throw (env : MathEnv) (s : Settings)
    (td0 : TrackingData) (faceRes : Except Unit FaceResults)
    (poseRes : Except Unit PoseResults) (handRes : Except Unit HandResults)
    (h : (s.faceTrackingEnabled = true ∧ faceRes = .error ())
       ∨ (s.bodyTrackingEnabled = true ∧ poseRes = .error ())
       ∨ (s.handTrackingEnabled = true ∧ handRes = .error ())) :
    ∃ leaked, tickBody env s td0 faceRes poseRes handRes = .error leaked := by
  unfold tickBody
  rcases h with ⟨hf, he⟩ | ⟨hb, he⟩ | ⟨hh, he⟩
  · subst he
    rw [if_pos hf]
    exact ⟨td0, rfl⟩
  · subst he
    apply bind_eq_error_of_snd
    intro a1
    rw [if_pos hb]
    exact ⟨leak td0 a1.1, rfl⟩
  · subst he
    apply bind_eq_error_of_snd
    intro a1
    apply bind_eq_error_of_snd
    intro a2
    rw [if_pos hh]
    exact ⟨leak td0 a2.1, rfl⟩

/-- The face data one tick publishes (or leaves leaked in the carried
state): either the previous face unchanged, or the face block's output on
this tick's face results — every later stage, the final smoothing, and the
catch's leak preserve it. -/
lemma predict_face_cases (env : MathEnv) (s : Settings) (prev : TrackingData)
    (prevStatus : DetectionStatus) (faceRes : Except Unit FaceResults)
    (poseRes : Except Unit PoseResults) (handRes : Except Unit HandResults) :
    (predict env s prev prevStatus faceRes poseRes handRes).1.face = prev.face
    ∨ ∃ fr, s.faceTrackingEnabled = true ∧ faceRes = .ok fr
        ∧ (predict env s prev prevStatus faceRes poseRes handRes).1.face
            = (faceStep env s fr prev freshStatus).1.face := by
  unfold predict
  cases htb : tickBody env s prev faceRes poseRes handRes with
  | error leaked =>
      dsimp only
      rcases tickBody_error_decompose _ _ _ _ _ _ _ htb with
        ⟨_, _, hl⟩ | ⟨a1, h1, hrest⟩
      · left
        rw [hl]
      · have hl : leaked.face = a1.1.face := by
          rcases hrest with ⟨_, _, hl⟩ | ⟨a2, h2, _, _, hl⟩
          · rw [hl]
            rfl
          · rw [hl]
            show a2.1.face = a1.1.face
            by_cases hb : s.bodyTrackingEnabled = true
            · rw [if_pos hb] at h2
              obtain ⟨pr, _, ha2⟩ := h2
              rw [ha2, poseStep_face]
            · rw [if_neg hb] at h2
              rw [h2]
        by_cases hf : s.faceTrackingEnabled = true
        · rw [if_pos hf] at h1
          obtain ⟨fr, hfr, ha1⟩ := h1
          right
          exact ⟨fr, hf, hfr, by rw [hl, ha1]⟩
        · rw [if_neg hf] at h1
          left
          rw [hl, h1]
  | ok r =>
      obtain ⟨a1, a2, a3, h1, h2, h3, hre⟩ :=
        tickBody_ok_decompose _ _ _ _ _ _ _ htb
      subst hre
      dsimp only
      rw [smoothStep_eq]
      have hf3 : a3.1.face = a2.1.face := by
        by_cases hh : s.handTrackingEnabled = true
        · rw [if_pos hh] at h3
          obtain ⟨hr2, _, ha3⟩ := h3
          rw [ha3, handsStep_face]
        · rw [if_neg hh] at h3
          rw [h3]
      have hf2 : a2.1.face = a1.1.face := by
        by_cases hb : s.bodyTrackingEnabled = true
        · rw [if_pos hb] at h2
          obtain ⟨pr2, _, ha2⟩ := h2
          rw [ha2, poseStep_face]
        · rw [if_neg hb] at h2
          rw [h2]
      by_cases hf : s.faceTrackingEnabled = true
      · rw [if_pos hf] at h1
        obtain ⟨fr, hfr, ha1⟩ := h1
        right
        exact ⟨fr, hf, hfr, by rw [hf3, hf2, ha1]⟩
      · rw [if_neg hf] at h1
        left
        rw [hf3, hf2, h1]

/-- When the pose detector reports nothing (or is disabled), the published
(or leaked) pose is the previous pose, on success and throw paths alike. -/
lemma predict_pose_preserved (env : MathEnv) (s : Settings)
    (prev : TrackingData) (prevStatus : DetectionStatus)
    (faceRes : Except Unit FaceResults) (poseRes : Except Unit PoseResults)
    (handRes : Except Unit HandResults)
    (h : ∀ pr, poseRes = .ok pr → ¬ 0 < pr.landmarks.length) :
    (predict env s prev prevStatus faceRes poseRes handRes).1.pose
      = prev.pose := by
  unfold predict
  cases htb : tickBody env s prev faceRes poseRes handRes with
  | error leaked =>
      dsimp only
      exact tickBody_error_pose _ _ _ _ _ _ _ htb
  | ok r =>
      obtain ⟨a1, a2, a3, h1, h2, h3, hre⟩ :=
        tickBody_ok_decompose _ _ _ _ _ _ _ htb
      subst hre
      dsimp only
      rw [smoothStep_eq]
      have hp3 : a3.1.pose = a2.1.pose := by
        by_cases hh : s.handTrackingEnabled = true
        · rw [if_pos hh] at h3
          obtain ⟨hr2, _, ha3⟩ := h3
          rw [ha3, handsStep_pose]
        · rw [if_neg hh] at h3
          rw [h3]
      have hp2 : a2.1.pose = a1.1.pose := by
        by_cases hb : s.bodyTrackingEnabled = true
        · rw [if_pos hb] at h2
          obtain ⟨pr, hpr, ha2⟩ := h2
          rw [ha2, poseStep_of_no_landmarks _ _ _ (h pr hpr)]
        · rw [if_neg hb] at h2
          rw [h2]
      have hp1 : a1.1.pose = prev.pose := by
        by_cases hfc : s.faceTrackingEnabled = true
        · rw [if_pos hfc] at h1
          obtain ⟨fr2, _, ha1⟩ := h1
          rw [ha1, faceStep_pose]
        · rw [if_neg hfc] at h1
          rw [h1]
      rw [hp3, hp2, hp1]

/-! ### Concrete fixtures -/

/-- An arbitrary math environment (the verified properties do not depend on
the actual `atan2`/`pi` values). -/
def envZ : MathEnv := { atan2 := fun _ _ => 0, pi := 0 }

/-- A face-tracking-only settings snapshot with the application's default
`trackingSmoothing = 0.5` and `mirrorMode` off. -/
def faceOnlySettings : Settings :=
  { faceTrackingEnabled := true, bodyTrackingEnabled := false
    handTrackingEnabled := false, mirrorMode := false
    trackingSmoothing := 1/2, trackingSpeed := 1
    lipSyncEnabled := true, lipSyncSensitivity := 7/10
    blinkEnabled := true, blinkInterval := some 4, idleAnimationEnabled := true }

/-- A full face landmark list (the MediaPipe face mesh has more than 264
points) whose nose tip (index 1) sits at `x = 2/3`, giving a raw yaw of
`(2/3 − 1/2) × 60 = 10` degrees, with both eye points on the horizontal
midline. -/
def faceLmsYaw10 : List Landmark :=
  (((List.replicate 264 (⟨0, 0, 0⟩ : Landmark)).set 1 ⟨2/3, 1/2, 0⟩).set 33
    ⟨9/20, 1/2, 0⟩).set 263 ⟨11/20, 1/2, 0⟩

/-- Face detector output: one face with raw yaw 10°, no blend shapes. -/
def faceResYaw10 : FaceResults :=
  { faceLandmarks := [faceLmsYaw10], faceBlendshapes := [] }

/-- Pose detector output: nothing detected. -/
def noPoseRes : PoseResults := { landmarks := [] }

/-- Hand detector output: nothing detected. -/
def noHandRes : HandResults := { landmarks := [], handedness := [] }

/-- Face detector output: nothing detected. -/
def noFaceRes : FaceResults := { faceLandmarks := [], faceBlendshapes := [] }

/-- A previous tick's published state carrying a non-empty blend-shape
mapping. -/
def staleBSPrev : TrackingData :=
  { initialTrackingData with face.blendShapes := [("jawOpen", 1/2)] }

/-- Nose-tip access on the concrete landmark list. -/
lemma getLm_faceLmsYaw10_nose : getLm faceLmsYaw10 1 = ⟨2/3, 1/2, 0⟩ := by
  unfold getLm faceLmsYaw10
  rw [List.getD_eq_getElem?_getD]
  rw [List.getElem?_set_ne (by norm_num), List.getElem?_set_ne (by norm_num),
    List.getElem?_set_self', List.getElem?_replicate]
  norm_num

/-- Left-eye access on the concrete landmark list. -/
lemma getLm_faceLmsYaw10_leftEye : getLm faceLmsYaw10 33 = ⟨9/20, 1/2, 0⟩ := by
  unfold getLm faceLmsYaw10
  rw [List.getD_eq_getElem?_getD]
  rw [List.getElem?_set_ne (by norm_num), List.getElem?_set_self']
  rw [List.getElem?_set_ne (by norm_num), List.getElem?_replicate]
  norm_num

/-- Right-eye access on the concrete landmark list. -/
lemma getLm_faceLmsYaw10_rightEye : getLm faceLmsYaw10 263 = ⟨11/20, 1/2, 0⟩ := by
  unfold getLm faceLmsYaw10
  rw [List.getD_eq_getElem?_getD]
  rw [List.getElem?_set_self']
  rw [List.getElem?_set_ne (by norm_num), List.getElem?_set_ne (by norm_num),
    List.getElem?_replicate]
  norm_num

/-! ### Claims -/

/-- C1: the spec says each published smoothed axis equals
`lerp(previous, raw, 1 − trackingSmoothing)` — with smoothing 0.5, previous
yaw 0° and raw yaw 10° the published yaw should be 5°.  The code disagrees:
`{ ...trackingData }` is a shallow copy, so the smoothing lines read the
freshly written raw rotation for BOTH lerp arguments, and the tick publishes
the raw yaw 10° while the claimed formula yields 5°.  (The smoothing block is
observationally a no-op; the claim is the evident intent of the code.) -/
theorem C1_code_publishes_raw_not_lerp :
    ((predict envZ faceOnlySettings initialTrackingData initialDetectionStatus
        (.ok faceResYaw10) (.ok noPoseRes) (.ok noHandRes)).1.face.rotation.y = 10)
    ∧ lerp initialTrackingData.face.rotation.y 10
        (1 - faceOnlySettings.trackingSmoothing) = 5 := by
  constructor
  · unfold predict tickBody
    norm_num [envZ, faceOnlySettings, faceResYaw10, noPoseRes, noHandRes,
      faceStep, poseStep, handsStep, smoothStep_eq, freshStatus,
      initialTrackingData, getLm_faceLmsYaw10_nose, getLm_faceLmsYaw10_leftEye,
      getLm_faceLmsYaw10_rightEye]
  · norm_num [lerp, initialTrackingData, faceOnlySettings]

/-- C7: with lip sync enabled the applier writes
`aa = max(blendShapes.jawOpen || 0, micLevel) × lipSyncSensitivity`; the
value is monotone in `max(trackingMouth, micLevel)` for non-negative
sensitivity, a missing `jawOpen` reads as 0, and the spec scenario
`mouthOpen(0.2, 0.6, 0.7) = 0.42` holds exactly. -/
theorem C7_mouthOpen_fusion (s : Settings) (bs : List (String × ℚ)) (mic t : ℚ)
    (h1 : s.lipSyncEnabled = true) (h2 : s.faceTrackingEnabled = true) :
    ("aa", mouthOpen bs mic s.lipSyncSensitivity) ∈ expressionWrites s bs mic t
    ∧ mouthOpen bs mic s.lipSyncSensitivity
        = max (getScore bs "jawOpen") mic * s.lipSyncSensitivity
    ∧ (∀ bs2 mic2, 0 ≤ s.lipSyncSensitivity →
        max (getScore bs "jawOpen") mic ≤ max (getScore bs2 "jawOpen") mic2 →
        mouthOpen bs mic s.lipSyncSensitivity
          ≤ mouthOpen bs2 mic2 s.lipSyncSensitivity)
    ∧ (∀ mic2 sens2, mouthOpen [] mic2 sens2 = max 0 mic2 * sens2)
    ∧ mouthOpen [("jawOpen", 1/5)] (3/5) (7/10) = 21/50 := by
  refine ⟨?_, rfl, ?_, ?_, by norm_num [mouthOpen, getScore, List.find?]⟩
  · simp [expressionWrites, h1, h2]
  · intro bs2 mic2 hs hm
    exact mul_le_mul_of_nonneg_right hm hs
  · intro mic2 sens2
    rfl

/-- C7 witness: the spec scenario evaluated through the theorem. -/
theorem C7_mouthOpen_fusion_spec_value :
    mouthOpen [("jawOpen", 1/5)] (3/5) (7/10) = 21/50 :=
  (C7_mouthOpen_fusion faceOnlySettings [] 0 0 rfl rfl).2.2.2.2

/-- C9 counterexample: tick with a detected face but NO blend-shape output,
following a tick that published `jawOpen = 1/2`.  The claim demands an empty
mapping; the code retains the stale previous mapping (the shallow copy keeps
`face.blendShapes` unless the detector supplied a fresh one). -/
theorem C9_cex_stale_blendshapes :
    ((predict envZ faceOnlySettings staleBSPrev initialDetectionStatus
        (.ok faceResYaw10) (.ok noPoseRes) (.ok noHandRes)).1.face.blendShapes
      = [("jawOpen", 1/2)])
    ∧ faceResYaw10.faceBlendshapes = []
    ∧ ([("jawOpen", (1 : ℚ)/2)] ≠ ([] : List (String × ℚ))) := by
  refine ⟨?_, rfl, by simp⟩
  unfold predict tickBody
  norm_num [envZ, faceOnlySettings, faceResYaw10, noPoseRes, noHandRes,
    faceStep, poseStep, handsStep, smoothStep_eq, freshStatus, staleBSPrev,
    initialTrackingData]

/-- C9 amended: on a tick where the face detector provides no blend-shape
output (or throws, or face tracking is disabled), the published blend-shape
mapping is the PREVIOUS tick's mapping, unchanged — it is empty only when
the previous one was. -/
theorem C9_missing_blendshapes_keep_previous (env : MathEnv) (s : Settings)
    (prev : TrackingData) (prevStatus : DetectionStatus)
    (faceRes : Except Unit FaceResults) (poseRes : Except Unit PoseResults)
    (handRes : Except Unit HandResults)
    (h : ∀ fr, faceRes = .ok fr → fr.faceBlendshapes = []) :
    (predict env s prev prevStatus faceRes poseRes handRes).1.face.blendShapes
      = prev.face.blendShapes := by
  rcases predict_face_cases env s prev prevStatus faceRes poseRes handRes with
    hc | ⟨fr, _, hfr, hc⟩
  · rw [hc]
  · rw [hc, faceStep_blendShapes_of_no_blendshapes _ _ _ _ _ (h fr hfr)]

/-- C9 witness: concrete tick (face detected, no blend shapes) retaining the
previous mapping. -/
theorem C9_missing_blendshapes_keep_previous_inst :
    (predict envZ faceOnlySettings staleBSPrev initialDetectionStatus
        (.ok faceResYaw10) (.ok noPoseRes) (.ok noHandRes)).1.face.blendShapes
      = staleBSPrev.face.blendShapes :=
  C9_missing_blendshapes_keep_previous _ _ _ _ _ _ _
    (by intro fr hfr; cases hfr; rfl)

/-- C10: the defaulted blink interval `settings.blinkInterval || 4` is never
zero (a falsy setting — absent or 0 — is replaced by 4), so the auto-blink
modulo is never a modulo by zero. -/
theorem C10_blinkInterval_default_nonzero :
    ∀ s : Settings, 0 < effBlinkInterval s ∧ ((effBlinkInterval s : ℤ) ≠ 0) := by
  intro s
  unfold effBlinkInterval
  cases s.blinkInterval with
  | none => exact ⟨by norm_num, by norm_num⟩
  | some n =>
      dsimp only
      by_cases hn : n = 0
      · rw [if_pos hn]
        exact ⟨by norm_num, by norm_num⟩
      · rw [if_neg hn]
        refine ⟨Nat.pos_of_ne_zero hn, ?_⟩
        exact_mod_cast hn

/-- Hand-tracking-only settings snapshot. -/
def handOnlySettings : Settings :=
  { faceOnlySettings with faceTrackingEnabled := false, handTrackingEnabled := true }

/-- A previous tick's published state carrying a detected left hand. -/
def staleHandPrev : TrackingData :=
  { initialTrackingData with hands.left := ⟨[⟨1, 2, 3⟩], true⟩ }

/-- All three modalities enabled. -/
def allSettings : Settings :=
  { faceOnlySettings with bodyTrackingEnabled := true, handTrackingEnabled := true }

/-- A previous tick's published state with a non-zero head rotation. -/
def heldPrev : TrackingData :=
  { initialTrackingData with face.rotation := ⟨1, 2, 3⟩ }

/-- Hand detector output reporting one left hand. -/
def oneHandRes : HandResults :=
  { landmarks := [[⟨1, 1, 0⟩]], handedness := [["Left"]] }

/-- C2 counterexample: a tick whose hand detector reports no hands at all,
after a tick that published a detected left hand.  The claim demands
`detected = false` and empty landmarks; the published frame still carries
the stale `detected = true` entry with its old landmarks (the shallow copy
keeps `hands` unless this tick's detector overwrote that side). -/
theorem C2_cex_stale_hand :
    ((predict envZ handOnlySettings staleHandPrev initialDetectionStatus
        (.ok noFaceRes) (.ok noPoseRes) (.ok noHandRes)).1.hands.left
      = ⟨[⟨1, 2, 3⟩], true⟩)
    ∧ noHandRes.landmarks = []
    ∧ ((⟨[⟨1, 2, 3⟩], true⟩ : HandData).detected ≠ false
        ∧ (⟨[⟨1, 2, 3⟩], true⟩ : HandData).landmarks ≠ []) := by
  refine ⟨?_, rfl, by simp, by simp⟩
  unfold predict tickBody
  simp [handOnlySettings, faceOnlySettings, noFaceRes, noPoseRes, noHandRes,
    faceStep, poseStep, handsStep, smoothStep_eq, freshStatus, staleHandPrev,
    initialTrackingData]

/-- C2 amended: a hand side not named by this tick's handedness labels keeps
the PREVIOUS frame's entry for that side (landmarks and `detected` flag are
carried over, possibly stale); only the per-tick `DetectionStatus` flag for
that side is freshly false. -/
theorem C2_missed_hand_keeps_previous_entry (env : MathEnv) (s : Settings)
    (prev : TrackingData) (prevStatus : DetectionStatus) (fr : FaceResults)
    (pr : PoseResults) (hr : HandResults) (isLeft : Bool)
    (h : ∀ l ∈ hr.handedness, (l.getD 0 "").toLower ≠ sideName isLeft) :
    handOf (predict env s prev prevStatus (.ok fr) (.ok pr) (.ok hr)).1.hands isLeft
      = handOf prev.hands isLeft
    ∧ handFlagOf
        (predict env s prev prevStatus (.ok fr) (.ok pr) (.ok hr)).2.handsDetected
        isLeft = false := by
  unfold predict
  cases htb : tickBody env s prev (.ok fr) (.ok pr) (.ok hr) with
  | error e =>
      exfalso
      obtain ⟨r, hok⟩ := tickBody_ok_of_all_ok env s prev fr pr hr
      rw [htb] at hok
      exact Except.noConfusion hok
  | ok r =>
      obtain ⟨a1, a2, a3, h1, h2, h3, hre⟩ :=
        tickBody_ok_decompose _ _ _ _ _ _ _ htb
      subst hre
      dsimp only
      rw [smoothStep_eq]
      have ha1h : a1.1.hands = prev.hands
          ∧ a1.2.handsDetected = freshStatus.handsDetected := by
        by_cases hf : s.faceTrackingEnabled = true
        · rw [if_pos hf] at h1
          obtain ⟨fr2, _, ha1⟩ := h1
          rw [ha1]
          exact ⟨faceStep_hands _ _ _ _ _, faceStep_handsDetected _ _ _ _ _⟩
        · rw [if_neg hf] at h1
          rw [h1]
          exact ⟨rfl, rfl⟩
      have ha2h : a2.1.hands = a1.1.hands
          ∧ a2.2.handsDetected = a1.2.handsDetected := by
        by_cases hb : s.bodyTrackingEnabled = true
        · rw [if_pos hb] at h2
          obtain ⟨pr2, _, ha2⟩ := h2
          rw [ha2]
          exact ⟨poseStep_hands _ _ _, poseStep_handsDetected _ _ _⟩
        · rw [if_neg hb] at h2
          rw [h2]
          exact ⟨rfl, rfl⟩
      have ha3h : handOf a3.1.hands isLeft = handOf a2.1.hands isLeft
          ∧ handFlagOf a3.2.handsDetected isLeft
              = handFlagOf a2.2.handsDetected isLeft := by
        by_cases hh : s.handTrackingEnabled = true
        · rw [if_pos hh] at h3
          obtain ⟨hr2, hhr, ha3⟩ := h3
          injection hhr with hhr2
          subst hhr2
          rw [ha3]
          exact handsStep_side _ _ _ _ h
        · rw [if_neg hh] at h3
          rw [h3]
          exact ⟨rfl, rfl⟩
      constructor
      · rw [ha3h.1, ha2h.1, ha1h.1]
      · rw [ha3h.2, ha2h.2, ha1h.2]
        cases isLeft with
        | false => rfl
        | true => rfl

/-- C2 witness: concrete tick with no reported hands keeping the stale left
entry, with a fresh false detection flag. -/
theorem C2_missed_hand_keeps_previous_entry_inst :
    handOf (predict envZ handOnlySettings staleHandPrev initialDetectionStatus
        (.ok noFaceRes) (.ok noPoseRes) (.ok noHandRes)).1.hands true
      = handOf staleHandPrev.hands true
    ∧ handFlagOf (predict envZ handOnlySettings staleHandPrev
        initialDetectionStatus (.ok noFaceRes) (.ok noPoseRes)
        (.ok noHandRes)).2.handsDetected true = false :=
  C2_missed_hand_keeps_previous_entry _ _ _ _ _ _ _ _ (by simp [noHandRes])

/-- C4 counterexample: only the pose detector throws this tick, while the
face detector succeeded with a detected face and a hand was reported.  The
claim demands the other modalities' detections be committed for the tick;
instead the single try/catch aborts everything after the throw: neither
`set` call runs, the DetectionStatus keeps all its previous values (face not
marked detected, reported hand not marked), and the hand entry is never
extracted.  The face block's output is not "committed" either — it merely
leaks in place through the shared `face` object (carried rotation.y is 10,
not the previous 0), with no detection flag accompanying it. -/
theorem C4_cex_throw_discards_other_modalities :
    ((predict envZ allSettings initialTrackingData initialDetectionStatus
        (.ok faceResYaw10) (.error ()) (.ok oneHandRes)).2
      = initialDetectionStatus)
    ∧ initialDetectionStatus.faceDetected = false
    ∧ initialDetectionStatus.handsDetected.left = false
    ∧ 0 < faceResYaw10.faceLandmarks.length
    ∧ ((predict envZ allSettings initialTrackingData initialDetectionStatus
        (.ok faceResYaw10) (.error ()) (.ok oneHandRes)).1.hands.left
      = initialTrackingData.hands.left)
    ∧ ((predict envZ allSettings initialTrackingData initialDetectionStatus
        (.ok faceResYaw10) (.error ()) (.ok oneHandRes)).1.face.rotation.y
      = 10) := by
  have hpred : predict envZ allSettings initialTrackingData
      initialDetectionStatus (.ok faceResYaw10) (.error ()) (.ok oneHandRes)
    = (leak initialTrackingData
        (faceStep envZ allSettings faceResYaw10 initialTrackingData
          freshStatus).1,
       initialDetectionStatus) := rfl
  refine ⟨by rw [hpred], rfl, rfl, by norm_num [faceResYaw10], ?_, ?_⟩
  · rw [hpred]
    show ((faceStep envZ allSettings faceResYaw10 initialTrackingData
        freshStatus).1).hands.left = initialTrackingData.hands.left
    rw [faceStep_hands]
  · rw [hpred]
    show ((faceStep envZ allSettings faceResYaw10 initialTrackingData
        freshStatus).1).face.rotation.y = 10
    norm_num [faceStep, faceResYaw10, allSettings, faceOnlySettings,
      getLm_faceLmsYaw10_nose, getLm_faceLmsYaw10_leftEye,
      getLm_faceLmsYaw10_rightEye, initialTrackingData]

/-- C4 amended: a detector throw by any invoked modality aborts the rest of
the tick and the whole commit: no later modality runs and neither state
setter is called, so the published DetectionStatus keeps ALL its previous
values and the skipped modalities' detections are never committed.  The
frame is not rolled back either: in-place mutations made before the throw
persist through the shared objects of the shallow copy — a face-detector
throw leaves the carried frame pristine, but a face block that ran before a
pose throw leaves its face data in the carried state, uncommitted; pose
updates never leak.  The error is only logged and the loop reschedules
(`predict` is total). -/
theorem C4_throw_aborts_commit_and_leaks (env : MathEnv) (s : Settings)
    (prev : TrackingData) (prevStatus : DetectionStatus)
    (faceRes : Except Unit FaceResults) (poseRes : Except Unit PoseResults)
    (handRes : Except Unit HandResults)
    (h : (s.faceTrackingEnabled = true ∧ faceRes = .error ())
       ∨ (s.bodyTrackingEnabled = true ∧ poseRes = .error ())
       ∨ (s.handTrackingEnabled = true ∧ handRes = .error ())) :
    (predict env s prev prevStatus faceRes poseRes handRes).2 = prevStatus
    ∧ (predict env s prev prevStatus faceRes poseRes handRes).1.pose
        = prev.pose
    ∧ (s.faceTrackingEnabled = true → faceRes = .error () →
        (predict env s prev prevStatus faceRes poseRes handRes).1 = prev)
    ∧ (∀ fr, s.faceTrackingEnabled = true → faceRes = .ok fr →
        s.bodyTrackingEnabled = true → poseRes = .error () →
        (predict env s prev prevStatus faceRes poseRes handRes).1.face
          = (faceStep env s fr prev freshStatus).1.face) := by
  obtain ⟨leaked, htb⟩ :=
    tickBody_isError_of_throw env s prev faceRes poseRes handRes h
  refine ⟨?_, ?_, ?_, ?_⟩
  · unfold predict
    rw [htb]
  · unfold predict
    rw [htb]
    exact tickBody_error_pose _ _ _ _ _ _ _ htb
  · intro hf he
    subst he
    unfold predict tickBody
    simp [hf]
  · intro fr hf hfr hb he
    subst hfr
    subst he
    unfold predict tickBody
    simp [hf, hb, leak]

/-- C4 witness: a concrete face-detector throw leaves the carried frame
pristine. -/
theorem C4_throw_aborts_commit_and_leaks_inst :
    (predict envZ allSettings initialTrackingData initialDetectionStatus
        (.error ()) (.ok noPoseRes) (.ok noHandRes)).1 = initialTrackingData :=
  (C4_throw_aborts_commit_and_leaks envZ allSettings initialTrackingData
    initialDetectionStatus (.error ()) (.ok noPoseRes) (.ok noHandRes)
    (Or.inl ⟨rfl, rfl⟩)).2.2.1 rfl rfl

/-- C5: on a tick where the face branch does not take its detected path
(face tracking disabled, detector threw, or empty landmark list), the
published head rotation is exactly the previous tick's rotation on all
three axes — held, never recomputed or zeroed — for any smoothing value in
`[0, 1)`. -/
theorem C5_rotation_held_when_no_face (env : MathEnv) (s : Settings)
    (prev : TrackingData) (prevStatus : DetectionStatus)
    (faceRes : Except Unit FaceResults) (poseRes : Except Unit PoseResults)
    (handRes : Except Unit HandResults)
    (hface : faceDetectedTick s faceRes = false)
    (_hsm : 0 ≤ s.trackingSmoothing ∧ s.trackingSmoothing < 1) :
    (predict env s prev prevStatus faceRes poseRes handRes).1.face.rotation
      = prev.face.rotation := by
  rcases predict_face_cases env s prev prevStatus faceRes poseRes handRes with
    hc | ⟨fr, hf, hfr, hc⟩
  · rw [hc]
  · have hlen : ¬ 0 < fr.faceLandmarks.length := by
      unfold faceDetectedTick at hface
      rw [hf, hfr] at hface
      simpa using hface
    rw [hc, faceStep_of_no_landmarks _ _ _ _ _ hlen]

/-- C5 witness: with smoothing 0.5 and no face this tick, the non-zero
previous rotation is republished verbatim. -/
theorem C5_rotation_held_when_no_face_inst :
    (0 ≤ faceOnlySettings.trackingSmoothing
      ∧ faceOnlySettings.trackingSmoothing < 1)
    ∧ (predict envZ faceOnlySettings heldPrev initialDetectionStatus
        (.ok noFaceRes) (.ok noPoseRes) (.ok noHandRes)).1.face.rotation
      = heldPrev.face.rotation :=
  ⟨by norm_num [faceOnlySettings],
   C5_rotation_held_when_no_face _ _ _ _ _ _ _ rfl
     (by norm_num [faceOnlySettings])⟩

/-- A looked-up score inherits the bounds of the mapping (absent names read
as 0). -/
lemma getScore_bounds (m : List (String × ℚ)) (k : String)
    (h : ∀ p ∈ m, 0 ≤ p.2 ∧ p.2 ≤ 1) : 0 ≤ getScore m k ∧ getScore m k ≤ 1 := by
  unfold getScore
  cases hf : m.find? (fun p => p.1 == k) with
  | none => simp
  | some p =>
      have hp : p ∈ m := List.mem_of_find?_eq_some hf
      simpa using h p hp

/-- Blend-shape mapping whose smile scores sum above 1. -/
def c3bs : List (String × ℚ) := [("mouthSmileLeft", 4/5), ("mouthSmileRight", 4/5)]

/-- C3 counterexample: with every score in [0,1], micLevel 0 and sensitivity
0.7, the applier writes `happy = 0.8 + 0.8 = 1.6 > 1` to the rig — the smile
weight is an unclamped sum, so not every delivered weight lies in [0,1]. -/
theorem C3_cex_happy_exceeds_one :
    (∀ p ∈ c3bs, 0 ≤ p.2 ∧ p.2 ≤ 1)
    ∧ ((0 : ℚ) ≤ 0 ∧ (0 : ℚ) ≤ 1)
    ∧ (0 ≤ faceOnlySettings.lipSyncSensitivity
        ∧ faceOnlySettings.lipSyncSensitivity ≤ 1)
    ∧ ("happy", (8 : ℚ)/5) ∈ expressionWrites faceOnlySettings c3bs 0 1
    ∧ ¬((8 : ℚ)/5 ≤ 1) := by
  refine ⟨?_, by norm_num, by norm_num [faceOnlySettings], ?_, by norm_num⟩
  · intro p hp
    simp only [c3bs, List.mem_cons, List.not_mem_nil, or_false] at hp
    rcases hp with rfl | rfl <;> norm_num
  · have hsum : getScore c3bs "mouthSmileLeft" + getScore c3bs "mouthSmileRight"
        = 8/5 := by
      simp [getScore, c3bs]
      norm_num
    unfold expressionWrites
    refine List.mem_append.mpr (Or.inl ?_)
    rw [if_pos (show faceOnlySettings.faceTrackingEnabled = true from rfl)]
    rw [if_pos (show faceOnlySettings.blinkEnabled = true from rfl)]
    rw [if_pos (show faceOnlySettings.lipSyncEnabled = true from rfl)]
    rw [← hsum]
    simp

/-- C3 amended: every weight the applier delivers lies in [0,2]; the blink
family, `aa` (mouth) and `surprised` weights additionally lie in [0,1], but
`happy` and `angry` are unclamped two-score sums that may exceed 1 (the rig
clamps downstream). -/
theorem C3_expression_weights_bounded (s : Settings) (bs : List (String × ℚ))
    (mic t : ℚ) (hbs : ∀ p ∈ bs, 0 ≤ p.2 ∧ p.2 ≤ 1)
    (hmic : 0 ≤ mic ∧ mic ≤ 1)
    (hsens : 0 ≤ s.lipSyncSensitivity ∧ s.lipSyncSensitivity ≤ 1) :
    ∀ p ∈ expressionWrites s bs mic t,
      0 ≤ p.2 ∧ p.2 ≤ 2 ∧ (p.2 ≤ 1 ∨ p.1 = "happy" ∨ p.1 = "angry") := by
  intro p hp
  have hBL := getScore_bounds bs "eyeBlinkLeft" hbs
  have hBR := getScore_bounds bs "eyeBlinkRight" hbs
  have hJO := getScore_bounds bs "jawOpen" hbs
  have hSL := getScore_bounds bs "mouthSmileLeft" hbs
  have hSR := getScore_bounds bs "mouthSmileRight" hbs
  have hBU := getScore_bounds bs "browInnerUp" hbs
  have hDL := getScore_bounds bs "browDownLeft" hbs
  have hDR := getScore_bounds bs "browDownRight" hbs
  unfold expressionWrites at hp
  rcases List.mem_append.mp hp with hp | hp
  · by_cases hft : s.faceTrackingEnabled = true
    · rw [if_pos hft] at hp
      rcases List.mem_append.mp hp with hp | hp
      · rcases List.mem_append.mp hp with hp | hp
        · by_cases hbe : s.blinkEnabled = true
          · rw [if_pos hbe] at hp
            simp only [List.mem_cons, List.not_mem_nil, or_false] at hp
            rcases hp with rfl | rfl | rfl <;> dsimp only
            · exact ⟨hBL.1, by linarith [hBL.2], Or.inl hBL.2⟩
            · exact ⟨hBR.1, by linarith [hBR.2], Or.inl hBR.2⟩
            · refine ⟨?_, ?_, Or.inl ?_⟩
              · have := hBL.1
                have := hBR.1
                linarith
              · linarith [hBL.2, hBR.2]
              · linarith [hBL.2, hBR.2]
          · rw [if_neg hbe] at hp
            simp at hp
        · by_cases hls : s.lipSyncEnabled = true
          · rw [if_pos hls] at hp
            simp only [List.mem_cons, List.not_mem_nil, or_false] at hp
            rcases hp with rfl | rfl <;> dsimp only
            · have h0 : 0 ≤ max (getScore bs "jawOpen") mic :=
                le_max_of_le_left hJO.1
              have h1 : max (getScore bs "jawOpen") mic ≤ 1 :=
                max_le hJO.2 hmic.2
              have hm0 : 0 ≤ mouthOpen bs mic s.lipSyncSensitivity := by
                unfold mouthOpen
                exact mul_nonneg h0 hsens.1
              have hm1 : mouthOpen bs mic s.lipSyncSensitivity ≤ 1 := by
                unfold mouthOpen
                calc max (getScore bs "jawOpen") mic * s.lipSyncSensitivity
                    ≤ 1 * 1 := mul_le_mul h1 hsens.2 hsens.1 (by norm_num)
                  _ = 1 := by norm_num
              exact ⟨hm0, by linarith, Or.inl hm1⟩
            · exact ⟨by linarith [hSL.1, hSR.1], by linarith [hSL.2, hSR.2],
                Or.inr (Or.inl rfl)⟩
          · rw [if_neg hls] at hp
            simp at hp
      · simp only [List.mem_cons, List.not_mem_nil, or_false] at hp
        rcases hp with rfl | rfl <;> dsimp only
        · exact ⟨hBU.1, by linarith [hBU.2], Or.inl hBU.2⟩
        · exact ⟨by linarith [hDL.1, hDR.1], by linarith [hDL.2, hDR.2],
            Or.inr (Or.inr rfl)⟩
    · rw [if_neg hft] at hp
      simp at hp
  · by_cases hab : autoBlinkFires s bs t = true
    · rw [if_pos hab] at hp
      simp only [List.mem_cons, List.not_mem_nil, or_false] at hp
      subst hp
      exact ⟨by norm_num, by norm_num, Or.inl (by norm_num)⟩
    · rw [if_neg hab] at hp
      simp at hp

/-- C3 witness: the blinkLeft weight delivered for a concrete half-closed
eye is bounded as the amended claim states. -/
theorem C3_expression_weights_bounded_inst :
    (0 : ℚ) ≤ ((("blinkLeft", (1 : ℚ)/2) : String × ℚ)).2
    ∧ ((("blinkLeft", (1 : ℚ)/2) : String × ℚ)).2 ≤ 2
    ∧ (((("blinkLeft", (1 : ℚ)/2) : String × ℚ)).2 ≤ 1
        ∨ ((("blinkLeft", (1 : ℚ)/2) : String × ℚ)).1 = "happy"
        ∨ ((("blinkLeft", (1 : ℚ)/2) : String × ℚ)).1 = "angry") := by
  refine C3_expression_weights_bounded faceOnlySettings
    [("eyeBlinkLeft", 1/2)] 0 1 ?_ (by norm_num) (by norm_num [faceOnlySettings])
    ("blinkLeft", 1/2) ?_
  · intro p hp
    simp only [List.mem_cons, List.not_mem_nil, or_false] at hp
    subst hp
    norm_num
  · have hsc : getScore [("eyeBlinkLeft", (1 : ℚ)/2)] "eyeBlinkLeft" = 1/2 := by
      simp [getScore]
    unfold expressionWrites
    refine List.mem_append.mpr (Or.inl ?_)
    rw [if_pos (show faceOnlySettings.faceTrackingEnabled = true from rfl)]
    rw [if_pos (show faceOnlySettings.blinkEnabled = true from rfl)]
    apply List.mem_append_left
    try apply List.mem_append_left
    rw [hsc]
    exact List.mem_cons_self _ _

/-- The defaulted blink interval is positive. -/
lemma effBlinkInterval_pos (s : Settings) : 0 < effBlinkInterval s := by
  unfold effBlinkInterval
  cases s.blinkInterval with
  | none => norm_num
  | some n =>
      dsimp only
      by_cases hn : n = 0
      · rw [if_pos hn]
        norm_num
      · rw [if_neg hn]
        exact Nat.pos_of_ne_zero hn

/-- The auto-blink time test holds exactly on the union of the windows
`[n·k, n·k + 0.15)` over k ∈ ℕ, for non-negative times and positive
interval. -/
lemma autoBlinkActive_iff (t : ℚ) (ht : 0 ≤ t) (n : ℕ) (hn : 0 < n) :
    autoBlinkActive t n = true
      ↔ ∃ k : ℕ, (n : ℚ) * k ≤ t ∧ t < n * k + 3/20 := by
  unfold autoBlinkActive
  rw [Bool.and_eq_true, decide_eq_true_eq, decide_eq_true_eq]
  constructor
  · rintro ⟨h1, h2⟩
    have hfl0 : (0 : ℤ) ≤ ⌊t⌋ := Int.floor_nonneg.mpr ht
    obtain ⟨m, hm⟩ := Int.dvd_of_emod_eq_zero h1
    have hn' : (0 : ℤ) < (n : ℤ) := by exact_mod_cast hn
    have hm0 : 0 ≤ m := by nlinarith
    have hmtn : ((m.toNat : ℤ)) = m := Int.toNat_of_nonneg hm0
    have hmtnQ : ((m.toNat : ℚ)) = ((m : ℤ) : ℚ) := by exact_mod_cast hmtn
    refine ⟨m.toNat, ?_, ?_⟩
    · calc (n : ℚ) * (m.toNat : ℚ) = (((n : ℤ) * m : ℤ) : ℚ) := by
            rw [hmtnQ]
            push_cast
            ring
        _ = ((⌊t⌋ : ℤ) : ℚ) := by rw [← hm]
        _ ≤ t := Int.floor_le t
    · have hlt : t < (⌊t⌋ : ℚ) + 3/20 := by linarith
      calc t < (⌊t⌋ : ℚ) + 3/20 := hlt
        _ = (n : ℚ) * (m.toNat : ℚ) + 3/20 := by
            rw [hm, hmtnQ]
            push_cast
            ring
  · rintro ⟨k, hk1, hk2⟩
    have hfl : ⌊t⌋ = (n : ℤ) * (k : ℤ) := by
      rw [Int.floor_eq_iff]
      constructor
      · push_cast
        exact hk1
      · push_cast
        linarith
    constructor
    · rw [hfl]
      exact Int.mul_emod_right _ _
    · rw [hfl]
      push_cast
      linarith

/-- Settings with face tracking off (isolating the auto-blink write). -/
def blinkOnlySettings : Settings :=
  { faceOnlySettings with faceTrackingEnabled := false }

/-- C6: with face tracking off so only the auto-blink path can write, the
applier writes `blink = 1` at time `t ≥ 0` iff blinking is enabled, the
tracked `eyeBlinkLeft` score is zero/absent (nonzero suppresses it), and `t`
falls in a window `[interval·k, interval·k + 0.15)` — with the default
interval 4 these are `[0,0.15) ∪ [4,4.15) ∪ [8,8.15) ∪ …`. -/
theorem C6_autoBlink_window (s : Settings) (bs : List (String × ℚ))
    (mic : ℚ) (t : ℚ) (ht : 0 ≤ t) (hft : s.faceTrackingEnabled = false) :
    (("blink", (1 : ℚ)) ∈ expressionWrites s bs mic t)
      ↔ (s.blinkEnabled = true ∧ getScore bs "eyeBlinkLeft" = 0
          ∧ ∃ k : ℕ, (effBlinkInterval s : ℚ) * k ≤ t
              ∧ t < effBlinkInterval s * k + 3/20) := by
  unfold expressionWrites
  rw [hft]
  rw [if_neg (by exact Bool.false_ne_true)]
  rw [List.nil_append]
  constructor
  · intro hmem
    by_cases hab : autoBlinkFires s bs t = true
    · unfold autoBlinkFires at hab
      rw [Bool.and_eq_true, Bool.and_eq_true, decide_eq_true_eq] at hab
      obtain ⟨⟨hbe, hsc⟩, hact⟩ := hab
      exact ⟨hbe, hsc,
        (autoBlinkActive_iff t ht _ (effBlinkInterval_pos s)).mp hact⟩
    · rw [if_neg hab] at hmem
      simp at hmem
  · rintro ⟨hbe, hsc, hex⟩
    have hab : autoBlinkFires s bs t = true := by
      unfold autoBlinkFires
      rw [Bool.and_eq_true, Bool.and_eq_true, decide_eq_true_eq]
      exact ⟨⟨hbe, hsc⟩,
        (autoBlinkActive_iff t ht _ (effBlinkInterval_pos s)).mpr hex⟩
    rw [if_pos hab]
    simp

/-- C6 witness: at t = 4.05 s with no tracked blink, the auto-blink write
fires. -/
theorem C6_autoBlink_window_inst :
    ("blink", (1 : ℚ)) ∈ expressionWrites blinkOnlySettings [] 0 (81/20) :=
  (C6_autoBlink_window blinkOnlySettings [] 0 (81/20) (by norm_num) rfl).mpr
    ⟨rfl, rfl, 1,
      by norm_num [effBlinkInterval, blinkOnlySettings, faceOnlySettings],
      by norm_num [effBlinkInterval, blinkOnlySettings, faceOnlySettings]⟩

/-- Body-tracking-only settings snapshot. -/
def bodyOnlySettings : Settings :=
  { faceOnlySettings with faceTrackingEnabled := false, bodyTrackingEnabled := true }

/-- A previous tick's published state carrying non-trivial pose positions
from an earlier detection. -/
def posePrev : TrackingData :=
  { initialTrackingData with pose :=
      { shoulders := ⟨⟨1/10, 1/2⟩, ⟨9/10, 1/2⟩⟩
        elbows := ⟨⟨1/10, 7/10⟩, ⟨9/10, 7/10⟩⟩
        wrists := ⟨⟨1/10, 9/10⟩, ⟨9/10, 9/10⟩⟩ } }

/-- A rig exposing every bone. -/
def allBones : String → Bool := fun _ => true

/-- C8 counterexample: a tick with NO detected pose still performs all four
shoulder/elbow rotation writes (from the retained previous positions) — the
applier has no per-side (or any) pose-detection gate, so the claim's "a side
with no detected pose this tick is skipped: no rotation is written" fails. -/
theorem C8_cex_pose_writes_without_detection :
    ((predict envZ bodyOnlySettings posePrev initialDetectionStatus
        (.ok noFaceRes) (.ok noPoseRes) (.ok noHandRes)).2.poseDetected = false)
    ∧ ((armBoneWrites envZ bodyOnlySettings
          (predict envZ bodyOnlySettings posePrev initialDetectionStatus
            (.ok noFaceRes) (.ok noPoseRes) (.ok noHandRes)).1.pose
          allBones).map Prod.fst
        = ["leftUpperArm", "rightUpperArm", "leftLowerArm", "rightLowerArm"]) := by
  have hpub : predict envZ bodyOnlySettings posePrev initialDetectionStatus
      (.ok noFaceRes) (.ok noPoseRes) (.ok noHandRes) = (posePrev, freshStatus) := by
    unfold predict tickBody
    simp [bodyOnlySettings, faceOnlySettings, noFaceRes, noPoseRes, noHandRes,
      faceStep, poseStep, handsStep, smoothStep_eq]
  rw [hpub]
  refine ⟨rfl, ?_⟩
  simp [armBoneWrites, bodyOnlySettings, faceOnlySettings, allBones]

/-- C8 amended: shoulder/elbow rotations are applied independently per side,
gated only on body tracking and on the rig exposing the bone; there is no
pose-detection gate.  On a tick with no detected pose, the previous pose
positions are republished and the exact same write values are recomputed, so
each bone ends at its last-written rotation by rewriting, not by skipping. -/
theorem C8_arm_writes_ignore_detection (env : MathEnv) (s : Settings)
    (prev : TrackingData) (prevStatus : DetectionStatus) (fr : FaceResults)
    (hr : HandResults) (hb : String → Bool) :
    (predict env s prev prevStatus (.ok fr) (.ok noPoseRes) (.ok hr)).1.pose
        = prev.pose
    ∧ armBoneWrites env s
        (predict env s prev prevStatus (.ok fr) (.ok noPoseRes) (.ok hr)).1.pose hb
      = armBoneWrites env s prev.pose hb
    ∧ (s.bodyTrackingEnabled = true → hb "leftUpperArm" = true →
        "leftUpperArm" ∈ (armBoneWrites env s prev.pose hb).map Prod.fst)
    ∧ (∀ p q : PoseData, p.shoulders.left = q.shoulders.left →
        p.elbows.left = q.elbows.left → p.wrists.left = q.wrists.left →
        (armBoneWrites env s p hb).filter
            (fun w => w.1 == "leftUpperArm" || w.1 == "leftLowerArm")
          = (armBoneWrites env s q hb).filter
            (fun w => w.1 == "leftUpperArm" || w.1 == "leftLowerArm")) := by
  have hpose : (predict env s prev prevStatus (.ok fr) (.ok noPoseRes)
      (.ok hr)).1.pose = prev.pose := by
    refine predict_pose_preserved env s prev prevStatus _ _ _ ?_
    intro pr hpr
    injection hpr with h2
    subst h2
    norm_num [noPoseRes]
  refine ⟨hpose, by rw [hpose], ?_, ?_⟩
  · intro hbt hlb
    unfold armBoneWrites
    rw [if_pos hbt, if_pos hlb]
    simp
  · intro p q hs he hw
    unfold armBoneWrites
    by_cases hbt : s.bodyTrackingEnabled = true
    · rw [if_pos hbt, if_pos hbt]
      by_cases b1 : hb "leftUpperArm" = true <;>
        by_cases b2 : hb "rightUpperArm" = true <;>
          by_cases b3 : hb "leftLowerArm" = true <;>
            by_cases b4 : hb "rightLowerArm" = true <;>
              simp [b1, b2, b3, b4, hs, he, hw]
    · rw [if_neg hbt, if_neg hbt]

/-- C8 witness: with body tracking enabled and all bones present, the
left-shoulder write is performed (regardless of detection). -/
theorem C8_arm_writes_ignore_detection_inst :
    "leftUpperArm"
      ∈ (armBoneWrites envZ bodyOnlySettings posePrev.pose allBones).map Prod.fst :=
  (C8_arm_writes_ignore_detection envZ bodyOnlySettings posePrev
    initialDetectionStatus noFaceRes noHandRes allBones).2.2.1 rfl rfl

end WebVrm
